import Mathlib

set_option maxRecDepth 40000

/-!
Verification of the stream-cipher duplex connection transform in
`src/common/crypto/crypto.go` (package `crypto` of the groundhog repository).

The Go code is embedded shallowly:

* `cipher.Stream` objects (Go's CTR/OFB-style keystream generators) are
  modelled as keystreams `Nat → Nat`; `XORKeyStream` becomes
  `xorKeyStreamBytes`, which XORs successive input bytes with successive
  keystream bytes and advances the stream.
* `aes.NewCipher` and the CTR mode constructor come from the Go standard
  library (external to this repository); they are modelled from their
  documented behaviour: `aesNewCipher` rejects any key length other than
  16/24/32 with a key-size error, and `aesEncryptBlock`/`newCTR` implement
  FIPS-197 AES and the big-endian counter mode of SP 800-38A (validated
  below against the FIPS-197 appendix vectors).
* `StreamEncryptDecrypter.initCipherStream` mutates its receiver in Go;
  here it is state-passing: it returns the updated record together with
  `Option CryptoError` (`none` = Go's `nil` error).  Go `nil` slices,
  function pointers and interface values become `Option.none`; an empty
  but non-nil Go slice is `some []`.
* The two transforms `Ciphertext` and `Plaintext` spawn two goroutines
  that copy bytes through `io.Pipe`s for the life of a session.  Their
  end-to-end dataflow is modelled as a function of the whole byte
  sequences involved: given the bytes supplied by the real connection and
  the bytes written by the caller on the returned connection, the model
  yields the bytes readable by the caller (`toCaller`) and the bytes
  delivered to the real connection (`toReal`).
* `CipherConn` is modelled with explicit state: a pipe state (the local
  read buffer and write log plus a closed flag for the local pipe ends)
  and a real-connection state with a closed flag.  The zero-length
  read/write probes and `Close` of the underlying `net.Conn` are modelled
  from the net package's documented behaviour: operations on a closed
  connection fail with a stable "use of closed network connection" error,
  and closing twice returns that error rather than crashing.
-/

/-! ## AES block cipher (model of Go `crypto/aes`, FIPS-197) -/

/-- Multiplication by x in GF(2^8) with the AES reduction polynomial. -/
def xtime (b : Nat) : Nat :=
  let b2 := b * 2
  if 256 ≤ b2 then Nat.xor b2 0x11b else b2

/-- Multiplication by 3 in GF(2^8). -/
def gmul3 (b : Nat) : Nat := Nat.xor (xtime b) b

/-- The AES S-box, FIPS-197 figure 7. -/
def sBox : List Nat :=
  [99, 124, 119, 123, 242, 107, 111, 197, 48, 1, 103, 43, 254, 215, 171, 118,
   202, 130, 201, 125, 250, 89, 71, 240, 173, 212, 162, 175, 156, 164, 114, 192,
   183, 253, 147, 38, 54, 63, 247, 204, 52, 165, 229, 241, 113, 216, 49, 21,
   4, 199, 35, 195, 24, 150, 5, 154, 7, 18, 128, 226, 235, 39, 178, 117,
   9, 131, 44, 26, 27, 110, 90, 160, 82, 59, 214, 179, 41, 227, 47, 132,
   83, 209, 0, 237, 32, 252, 177, 91, 106, 203, 190, 57, 74, 76, 88, 207,
   208, 239, 170, 251, 67, 77, 51, 133, 69, 249, 2, 127, 80, 60, 159, 168,
   81, 163, 64, 143, 146, 157, 56, 245, 188, 182, 218, 33, 16, 255, 243, 210,
   205, 12, 19, 236, 95, 151, 68, 23, 196, 167, 126, 61, 100, 93, 25, 115,
   96, 129, 79, 220, 34, 42, 144, 136, 70, 238, 184, 20, 222, 94, 11, 219,
   224, 50, 58, 10, 73, 6, 36, 92, 194, 211, 172, 98, 145, 149, 228, 121,
   231, 200, 55, 109, 141, 213, 78, 169, 108, 86, 244, 234, 101, 122, 174, 8,
   186, 120, 37, 46, 28, 166, 180, 198, 232, 221, 116, 31, 75, 189, 139, 138,
   112, 62, 181, 102, 72, 3, 246, 14, 97, 53, 87, 185, 134, 193, 29, 158,
   225, 248, 152, 17, 105, 217, 142, 148, 155, 30, 135, 233, 206, 85, 40, 223,
   140, 161, 137, 13, 191, 230, 66, 104, 65, 153, 45, 15, 176, 84, 187, 22]

/-- S-box lookup. -/
def sboxAt (b : Nat) : Nat := sBox.getD b 0

/-- SubBytes step. -/
def subBytes (s : List Nat) : List Nat := s.map sboxAt

/-- SubWord of the key schedule. -/
def subWord (w : List Nat) : List Nat := w.map sboxAt

/-- RotWord of the key schedule. -/
def rotWord : List Nat → List Nat
  | [] => []
  | a :: rest => rest ++ [a]

/-- Round constants, indexed from 1. -/
def rconV (j : Nat) : Nat :=
  [0, 1, 2, 4, 8, 0x10, 0x20, 0x40, 0x80, 0x1b, 0x36].getD j 0

/-- Byte-wise XOR of two equal-length byte lists. -/
def xorWord (a b : List Nat) : List Nat := List.zipWith Nat.xor a b

/-- Split a byte list into 4-byte columns/words. -/
def toColumns : List Nat → List (List Nat)
  | a :: b :: c :: d :: rest => [a, b, c, d] :: toColumns rest
  | _ => []

/-- FIPS-197 key expansion: extend the word list by the given count. -/
def keyExpandLoop (nk : Nat) : Nat → List (List Nat) → List (List Nat)
  | 0, ws => ws
  | n+1, ws =>
      let i := ws.length
      let temp := ws.getD (i - 1) []
      let temp2 :=
        if i % nk = 0 then xorWord (subWord (rotWord temp)) [rconV (i / nk), 0, 0, 0]
        else if 6 < nk ∧ i % nk = 4 then subWord temp
        else temp
      keyExpandLoop nk n (ws ++ [xorWord (ws.getD (i - nk) []) temp2])

/-- Round key `r`: words `4r .. 4r+3`, column-major, flattened. -/
def roundKey (ws : List (List Nat)) (r : Nat) : List Nat :=
  List.flatten ((ws.drop (4 * r)).take 4)

/-- ShiftRows on the column-major 16-byte state. -/
def shiftRows (s : List Nat) : List Nat :=
  (List.range 16).map (fun i =>
    let c := i / 4
    let r := i % 4
    s.getD (4 * ((c + r) % 4) + r) 0)

/-- MixColumns on one column. -/
def mixColumn : List Nat → List Nat
  | [a0, a1, a2, a3] =>
      [Nat.xor (Nat.xor (xtime a0) (gmul3 a1)) (Nat.xor a2 a3),
       Nat.xor (Nat.xor a0 (xtime a1)) (Nat.xor (gmul3 a2) a3),
       Nat.xor (Nat.xor a0 a1) (Nat.xor (xtime a2) (gmul3 a3)),
       Nat.xor (Nat.xor (gmul3 a0) a1) (Nat.xor a2 (xtime a3))]
  | l => l

/-- MixColumns on the whole state. -/
def mixColumnsAll (s : List Nat) : List Nat := List.flatten ((toColumns s).map mixColumn)

/-- The main rounds (SubBytes, ShiftRows, MixColumns, AddRoundKey), fuel-counted. -/
def aesRoundIter (ws : List (List Nat)) : Nat → Nat → List Nat → List Nat
  | 0, _, s => s
  | n+1, r, s =>
      aesRoundIter ws n (r + 1) (xorWord (mixColumnsAll (shiftRows (subBytes s))) (roundKey ws r))

/-- AES block encryption (key length 16/24/32 bytes), FIPS-197 section 5.1. -/
def aesEncryptBlock (key block : List Nat) : List Nat :=
  let nk := key.length / 4
  let nr := nk + 6
  let ws := keyExpandLoop nk (4 * (nr + 1) - nk) (toColumns key)
  let s0 := xorWord block (roundKey ws 0)
  let sMain := aesRoundIter ws (nr - 1) 1 s0
  xorWord (shiftRows (subBytes sMain)) (roundKey ws nr)

/-! ## Stream ciphers and CTR mode -/

/-- A `cipher.Stream` in the CTR/OFB family: the keystream still to come.
`s i` is the keystream byte that will be XORed onto the `i`-th upcoming
input byte. -/
abbrev CipherStream := Nat → Nat

/-- The all-zero keystream, used only as an `Option.getD` default that is
never reached on the success paths. -/
def zeroStream : CipherStream := fun _ => 0

/-- Advance a stream past `n` consumed bytes. -/
def streamShift (s : CipherStream) (n : Nat) : CipherStream := fun i => s (i + n)

/-- `XORKeyStream` over a whole byte sequence: XOR each byte with the next
keystream byte.  This models what `cipher.StreamReader`/`cipher.StreamWriter`
do to the bytes that flow through them, in order. -/
def xorKeyStreamBytes : CipherStream → List Nat → List Nat
  | _, [] => []
  | s, b :: rest => (b ^^^ s 0) :: xorKeyStreamBytes (streamShift s 1) rest

/-- A `cipher.Block`: block size plus the block encryption function. -/
structure BlockCipher where
  blockSize : Nat
  encrypt : List Nat → List Nat

/-- Big-endian bytes to natural number. -/
def beToNat : List Nat → Nat
  | [] => 0
  | b :: rest => b * 2 ^ (8 * rest.length) + beToNat rest

/-- Natural number to `len` big-endian bytes. -/
def natToBE : Nat → Nat → List Nat
  | 0, _ => []
  | n+1, v => natToBE n (v / 256) ++ [v % 256]

/-- The `j`-th CTR counter block: the IV incremented `j` times as a
big-endian integer (Go `crypto/cipher` ctr.go). -/
def ctrBlock (iv : List Nat) (j : Nat) : List Nat :=
  natToBE iv.length ((beToNat iv + j) % 2 ^ (8 * iv.length))

/-- Model of Go `cipher.NewCTR`: the keystream is the encryption of the
successive counter blocks. -/
def newCTR (b : BlockCipher) (iv : List Nat) : CipherStream :=
  fun i => (b.encrypt (ctrBlock iv (i / b.blockSize))).getD (i % b.blockSize) 0

/-- The AES-CTR keystream for a given key and IV; byte `i` of the keystream. -/
def aesCtrKeystream (key iv : List Nat) : CipherStream :=
  newCTR (BlockCipher.mk 16 (aesEncryptBlock key)) iv

/-! ## Errors and `aes.NewCipher` -/

/-- The spec's error taxonomy for the synchronous builder errors:
`errors.New` messages in `initCipherStream` are configuration errors and
`aes.KeySizeError` is a cipher-construction error. -/
inductive CryptoError where
  | ConfigurationError (msg : String)
  | CipherConstructionError (msg : String)
deriving DecidableEq

/-- Model of Go `aes.NewCipher`: any key length other than 16, 24 or 32
bytes is rejected with `KeySizeError`; otherwise an AES `cipher.Block` is
returned. -/
def aesNewCipher (key : List Nat) : Except CryptoError BlockCipher :=
  if key.length = 16 ∨ key.length = 24 ∨ key.length = 32 then
    .ok (BlockCipher.mk 16 (aesEncryptBlock key))
  else
    .error (.CipherConstructionError ("crypto/aes: invalid key size " ++ toString key.length))

/-! ## StreamEncryptDecrypter and the lazy builder -/

/-- `StreamEncryptDecrypter` from crypto.go.  Go `nil` slices, function
values and interface values are `none`; an empty non-nil slice is
`some []`. -/
structure StreamEncryptDecrypter where
  EncryptKey : Option (List Nat)
  DecryptKey : Option (List Nat)
  StreamEncrypter : Option (BlockCipher → List Nat → CipherStream)
  StreamDecrypter : Option (BlockCipher → List Nat → CipherStream)
  EncryptStream : Option CipherStream
  DecryptStream : Option CipherStream
  EncryptIV : Option (List Nat)
  DecryptIV : Option (List Nat)

/-- The decrypt-direction half of `initCipherStream` (the second `if` block
of the Go method): run only after the encrypt direction succeeded. -/
def initDecryptHalf (ed : StreamEncryptDecrypter) :
    StreamEncryptDecrypter × Option CryptoError :=
  match ed.DecryptStream with
  | some _ => (ed, none)
  | none =>
    match ed.StreamDecrypter, ed.DecryptKey with
    | some ctor, some key =>
      match ed.DecryptIV with
      | none => (ed, some (.ConfigurationError "decrypt IV must be set"))
      | some iv =>
        match aesNewCipher key with
        | .error e => (ed, some e)
        | .ok block => ({ ed with DecryptStream := some (ctor block iv) }, none)
    | _, _ =>
        (ed, some (.ConfigurationError
          "at least one of DecryptStream OR DecryptKey and StreamDecrypter must be set"))

/-- `StreamEncryptDecrypter.initCipherStream` from crypto.go, state-passing:
returns the (possibly partially materialized) receiver and `none` for Go's
`nil` error. -/
def StreamEncryptDecrypter.initCipherStream (ed : StreamEncryptDecrypter) :
    StreamEncryptDecrypter × Option CryptoError :=
  match ed.EncryptStream with
  | some _ => initDecryptHalf ed
  | none =>
    match ed.StreamEncrypter, ed.EncryptKey with
    | some ctor, some key =>
      match ed.EncryptIV with
      | none => (ed, some (.ConfigurationError "encrypt IV must be set"))
      | some iv =>
        match aesNewCipher key with
        | .error e => (ed, some e)
        | .ok block => initDecryptHalf { ed with EncryptStream := some (ctor block iv) }
    | _, _ =>
        (ed, some (.ConfigurationError
          "at least one of EncryptStream OR EncryptKey and StreamEncrypter must be set"))

/-! ## End-to-end dataflow of the two transforms

`Ciphertext` and `Plaintext` spawn one encrypt and one decrypt goroutine
each, copying bytes through two `io.Pipe`s until end of stream.  The
session's dataflow is modelled as a function of the complete byte
sequences: `toCaller` is what a reader of the returned connection
observes, `toReal` is what is delivered to the real connection passed in. -/

/-- The two byte sequences a session moves: the bytes the caller of the
transform can read from the returned connection, and the bytes the
session delivers to the real underlying connection. -/
structure DuplexSession where
  toCaller : List Nat
  toReal : List Nat
deriving DecidableEq

/-- `StreamEncryptDecrypter.Ciphertext` from crypto.go, as its session
dataflow.  `plainIn` is the byte sequence the real plaintext connection
supplies to the encrypt goroutine; `cipherWritten` is the byte sequence
the caller writes into the returned connection.  The encrypt goroutine
copies `plainIn` through `EncryptStream` to the caller; the decrypt
goroutine copies `cipherWritten` through `DecryptStream` to the real
connection.  A builder error is returned synchronously and no session is
created. -/
def StreamEncryptDecrypter.Ciphertext (ed : StreamEncryptDecrypter)
    (plainIn cipherWritten : List Nat) : Except CryptoError DuplexSession :=
  match ed.initCipherStream with
  | (_, some e) => .error e
  | (ed2, none) =>
      .ok (DuplexSession.mk
        (xorKeyStreamBytes (ed2.EncryptStream.getD zeroStream) plainIn)
        (xorKeyStreamBytes (ed2.DecryptStream.getD zeroStream) cipherWritten))

/-- `StreamEncryptDecrypter.Plaintext` from crypto.go, as its session
dataflow, mirror of `Ciphertext`: `plainWritten` is what the caller
writes into the returned plaintext connection (encrypted by the encrypt
goroutine and delivered to the real ciphertext connection), `cipherIn` is
what the real ciphertext connection supplies (decrypted by the decrypt
goroutine and readable by the caller). -/
def StreamEncryptDecrypter.Plaintext (ed : StreamEncryptDecrypter)
    (plainWritten cipherIn : List Nat) : Except CryptoError DuplexSession :=
  match ed.initCipherStream with
  | (_, some e) => .error e
  | (ed2, none) =>
      .ok (DuplexSession.mk
        (xorKeyStreamBytes (ed2.DecryptStream.getD zeroStream) cipherIn)
        (xorKeyStreamBytes (ed2.EncryptStream.getD zeroStream) plainWritten))

/-- Whether a transform call produced a session. -/
def exceptIsOk : Except CryptoError DuplexSession → Bool
  | .ok _ => true
  | .error _ => false

/-- The encrypt direction of `initCipherStream` succeeds, so control
reaches the decrypt direction's checks: either the encrypt stream is
already ready, or the encrypt direction's complete triple is present
with a key length AES accepts. -/
def encryptHalfOK (ed : StreamEncryptDecrypter) : Prop :=
  ed.EncryptStream.isSome = true ∨
  (ed.EncryptStream = none ∧ ed.StreamEncrypter.isSome = true ∧
    (∃ k, ed.EncryptKey = some k ∧
      (k.length = 16 ∨ k.length = 24 ∨ k.length = 32)) ∧
    ed.EncryptIV.isSome = true)

/-! ## CipherConn: the guarded connection -/

/-- The stable error a closed Go network connection reports. -/
def errClosed : String := "use of closed network connection"

/-- The real `net.Conn` underlying a `CipherConn`, reduced to its liveness
state.  Modelled from the net package: once closed, every read, write and
close fails with the stable `errClosed` error; a zero-length read or
write on a live connection succeeds immediately. -/
structure RealConn where
  closed : Bool
deriving DecidableEq

/-- A read of `len` bytes used as the zero-length liveness probe
(`Conn.Read([]byte{})` in crypto.go is the only read of the real
connection that `CipherConn` itself performs). -/
def RealConn.read (rc : RealConn) (_len : Nat) : List Nat × Option String :=
  if rc.closed then ([], some errClosed) else ([], none)

/-- A write used as the zero-length liveness probe
(`Conn.Write([]byte{})` in crypto.go). -/
def RealConn.write (rc : RealConn) (_bs : List Nat) : Nat × Option String :=
  if rc.closed then (0, some errClosed) else (0, none)

/-- Closing the real connection: idempotent, second close reports the
stable already-closed error. -/
def RealConn.close (rc : RealConn) : Option String × RealConn :=
  if rc.closed then (some errClosed, rc) else (none, RealConn.mk true)

/-- The local pipe ends backing a `CipherConn`'s `io.ReadWriter`:
`readBuf` holds the bytes available on the read end, `written` logs the
bytes written into the write end, `endClosed` records whether any of the
local pipe ends has been closed. -/
structure PipeState where
  readBuf : List Nat
  written : List Nat
  endClosed : Bool
deriving DecidableEq

/-- The pipe's read side: hand over up to `n` buffered bytes. -/
def PipeState.read (p : PipeState) (n : Nat) : List Nat × PipeState :=
  (p.readBuf.take n, PipeState.mk (p.readBuf.drop n) p.written p.endClosed)

/-- The pipe's write side: `io.PipeWriter.Write` accepts the whole buffer
and reports its length. -/
def PipeState.write (p : PipeState) (bs : List Nat) : Nat × PipeState :=
  (bs.length, PipeState.mk p.readBuf (p.written ++ bs) p.endClosed)

/-- `CipherConn` from crypto.go: the embedded `io.ReadWriter` (the two
local pipe ends) and the embedded real `net.Conn`. -/
structure CipherConn where
  rw : PipeState
  conn : RealConn
deriving DecidableEq

/-- `CipherConn.Read`: probe the real connection with a zero-length read;
on probe failure return 0 bytes and the probe's error without touching
the pipe, otherwise delegate to the pipe's read side. -/
def CipherConn.Read (c : CipherConn) (n : Nat) :
    (List Nat × Option String) × CipherConn :=
  match (RealConn.read c.conn 0).2 with
  | some e => (([], some e), c)
  | none =>
      let (bs, p) := PipeState.read c.rw n
      ((bs, none), CipherConn.mk p c.conn)

/-- `CipherConn.Write`: probe the real connection with a zero-length
write; on probe failure return 0 and the probe's error without touching
the pipe, otherwise delegate to the pipe's write side. -/
def CipherConn.Write (c : CipherConn) (bs : List Nat) :
    (Nat × Option String) × CipherConn :=
  match (RealConn.write c.conn []).2 with
  | some e => ((0, some e), c)
  | none =>
      let (n, p) := PipeState.write c.rw bs
      ((n, none), CipherConn.mk p c.conn)

/-- `CipherConn.Close`: crypto.go defines no `Close` method, so the one
promoted from the embedded `net.Conn` runs — it closes the real
connection and nothing else. -/
def CipherConn.Close (c : CipherConn) : Option String × CipherConn :=
  let (e, rc) := RealConn.close c.conn
  (e, CipherConn.mk c.rw rc)

/-- The termination path of each background goroutine of `Ciphertext` and
`Plaintext`: after its copy loop ends it calls `Close` on the returned
`CipherConn` and nothing else. -/
def taskTermination (c : CipherConn) : Option String × CipherConn :=
  CipherConn.Close c

/-! ## Concrete configurations used by witnesses and counterexamples -/

/-- A concrete keystream used in witnesses. -/
def ksW : CipherStream := fun i => (i * 7 + 3) % 256

/-- A configuration with both stream-cipher objects already materialized. -/
def edReady : StreamEncryptDecrypter :=
  StreamEncryptDecrypter.mk none none none none (some ksW) (some ksW) none none

/-- A configuration with every field nil. -/
def edNilW : StreamEncryptDecrypter :=
  StreamEncryptDecrypter.mk none none none none none none none none

/-- An empty (length-0, non-nil) encrypt key next to a present constructor
and IV: the counterexample configuration for C3. -/
def c3edCex : StreamEncryptDecrypter :=
  StreamEncryptDecrypter.mk (some []) none (some newCTR) none none none
    (some (List.replicate 16 0)) none

/-- A 5-byte encrypt key next to a present constructor and IV. -/
def edKey5W : StreamEncryptDecrypter :=
  StreamEncryptDecrypter.mk (some [1, 2, 3, 4, 5]) none (some newCTR) none none none
    (some (List.replicate 16 0)) none

/-- A complete encrypt triple next to an entirely nil decrypt direction:
the counterexample configuration for C6. -/
def c6edCex : StreamEncryptDecrypter :=
  StreamEncryptDecrypter.mk (some (List.range 16)) none (some newCTR) none none none
    (some (List.replicate 16 0)) none

/-- The concrete key 00..0F of the spec's concrete vector. -/
def c9key : List Nat := List.range 16

/-- The all-zero 16-byte IV of the spec's concrete vector. -/
def c9iv : List Nat := List.replicate 16 0

/-- The CTR-mode configuration of the spec's concrete vector: the same
key/IV pair in both directions, streams built lazily by the builder. -/
def c9ed : StreamEncryptDecrypter :=
  StreamEncryptDecrypter.mk (some c9key) (some c9key) (some newCTR) (some newCTR)
    none none (some c9iv) (some c9iv)

/-- A guarded connection whose real connection is still open. -/
def connOpenW : CipherConn :=
  CipherConn.mk (PipeState.mk [3] [4] false) (RealConn.mk false)

/-- A guarded connection whose real connection is already closed. -/
def connClosedW : CipherConn :=
  CipherConn.mk (PipeState.mk [9, 9] [] false) (RealConn.mk true)

/-! ## Sanity checks of the AES model against FIPS-197 -/

/-- FIPS-197 Appendix B: the worked AES-128 example. -/
theorem aes128_fips197_appendixB :
    aesEncryptBlock
      [0x2b, 0x7e, 0x15, 0x16, 0x28, 0xae, 0xd2, 0xa6,
       0xab, 0xf7, 0x15, 0x88, 0x09, 0xcf, 0x4f, 0x3c]
      [0x32, 0x43, 0xf6, 0xa8, 0x88, 0x5a, 0x30, 0x8d,
       0x31, 0x31, 0x98, 0xa2, 0xe0, 0x37, 0x07, 0x34] =
      [0x39, 0x25, 0x84, 0x1d, 0x02, 0xdc, 0x09, 0xfb,
       0xdc, 0x11, 0x85, 0x97, 0x19, 0x6a, 0x0b, 0x32] := by
  decide

/-- FIPS-197 Appendix C.1: AES-128 with key 00..0f. -/
theorem aes128_fips197_appendixC1 :
    aesEncryptBlock (List.range 16)
      [0x00, 0x11, 0x22, 0x33, 0x44, 0x55, 0x66, 0x77,
       0x88, 0x99, 0xaa, 0xbb, 0xcc, 0xdd, 0xee, 0xff] =
      [0x69, 0xc4, 0xe0, 0xd8, 0x6a, 0x7b, 0x04, 0x30,
       0xd8, 0xcd, 0xb7, 0x80, 0x70, 0xb4, 0xc5, 0x5a] := by
  decide

/-- FIPS-197 Appendix C.2: AES-192 with key 00..17. -/
theorem aes192_fips197_appendixC2 :
    aesEncryptBlock (List.range 24)
      [0x00, 0x11, 0x22, 0x33, 0x44, 0x55, 0x66, 0x77,
       0x88, 0x99, 0xaa, 0xbb, 0xcc, 0xdd, 0xee, 0xff] =
      [0xdd, 0xa9, 0x7c, 0xa4, 0x86, 0x4c, 0xdf, 0xe0,
       0x6e, 0xaf, 0x70, 0xa0, 0xec, 0x0d, 0x71, 0x91] := by
  decide

/-- FIPS-197 Appendix C.3: AES-256 with key 00..1f. -/
theorem aes256_fips197_appendixC3 :
    aesEncryptBlock (List.range 32)
      [0x00, 0x11, 0x22, 0x33, 0x44, 0x55, 0x66, 0x77,
       0x88, 0x99, 0xaa, 0xbb, 0xcc, 0xdd, 0xee, 0xff] =
      [0x8e, 0xa2, 0xb7, 0xca, 0x51, 0x67, 0x45, 0xbf,
       0xea, 0xfc, 0x49, 0x90, 0x4b, 0x49, 0x60, 0x89] := by
  decide

/-! ## Helper lemmas -/

/-- XORing with a keystream twice gives back the input. -/
theorem xorKeyStreamBytes_involutive (s : CipherStream) (l : List Nat) :
    xorKeyStreamBytes s (xorKeyStreamBytes s l) = l := by
  induction l generalizing s with
  | nil => rfl
  | cons b rest ih =>
      simp [xorKeyStreamBytes, ih, Nat.xor_cancel_right]

/-- The keystream transform neither truncates nor pads. -/
theorem xorKeyStreamBytes_length (s : CipherStream) (l : List Nat) :
    (xorKeyStreamBytes s l).length = l.length := by
  induction l generalizing s with
  | nil => rfl
  | cons b rest ih => simp [xorKeyStreamBytes, ih]

/-- The keystream transform of the empty sequence is empty. -/
theorem xorKeyStreamBytes_nil (s : CipherStream) : xorKeyStreamBytes s [] = [] := rfl

/-- A configuration whose two streams are both ready passes
`initCipherStream` unchanged. -/
theorem init_ready (ed : StreamEncryptDecrypter)
    (s t : CipherStream)
    (he : ed.EncryptStream = some s) (hd : ed.DecryptStream = some t) :
    ed.initCipherStream = (ed, none) := by
  unfold StreamEncryptDecrypter.initCipherStream initDecryptHalf
  simp [he, hd]

/-- The decrypt half never touches the encrypt direction or the decrypt
key/IV/constructor fields. -/
theorem initDecryptHalf_frame (ed : StreamEncryptDecrypter) :
    (initDecryptHalf ed).1.EncryptStream = ed.EncryptStream ∧
    (initDecryptHalf ed).1.EncryptKey = ed.EncryptKey ∧
    (initDecryptHalf ed).1.EncryptIV = ed.EncryptIV ∧
    (initDecryptHalf ed).1.StreamEncrypter = ed.StreamEncrypter ∧
    (initDecryptHalf ed).1.DecryptKey = ed.DecryptKey ∧
    (initDecryptHalf ed).1.DecryptIV = ed.DecryptIV ∧
    (initDecryptHalf ed).1.StreamDecrypter = ed.StreamDecrypter := by
  unfold initDecryptHalf
  repeat' split
  all_goals simp

/-- If the decrypt half succeeds, the decrypt stream is materialized. -/
theorem initDecryptHalf_some (ed : StreamEncryptDecrypter)
    (h : (initDecryptHalf ed).2 = none) :
    (initDecryptHalf ed).1.DecryptStream.isSome = true := by
  unfold initDecryptHalf at *
  repeat' split at h
  all_goals simp_all

/-- A successful decrypt half materializes the decrypt stream and keeps
the encrypt stream. -/
theorem initDecryptHalf_pair_some (ed ed2 : StreamEncryptDecrypter)
    (h : initDecryptHalf ed = (ed2, none)) :
    ed2.DecryptStream.isSome = true ∧ ed2.EncryptStream = ed.EncryptStream := by
  unfold initDecryptHalf at h
  repeat' split at h
  all_goals
    first
      | (simp_all
         done)
      | (simp only [Prod.mk.injEq] at h
         obtain ⟨h, -⟩ := h
         subst h
         simp_all)

/-- A successful `initCipherStream` materializes both streams. -/
theorem initCipherStream_pair_some (ed ed2 : StreamEncryptDecrypter)
    (h : ed.initCipherStream = (ed2, none)) :
    ed2.EncryptStream.isSome = true ∧ ed2.DecryptStream.isSome = true := by
  unfold StreamEncryptDecrypter.initCipherStream at h
  repeat' split at h
  all_goals
    first
      | (simp_all
         done)
      | (obtain ⟨hA, hB⟩ := initDecryptHalf_pair_some _ _ h
         refine ⟨?_, hA⟩
         rw [hB]
         simp_all)

/-- `initCipherStream_pair_some` restated through the projections. -/
theorem initCipherStream_some (ed : StreamEncryptDecrypter)
    (h : (ed.initCipherStream).2 = none) :
    (ed.initCipherStream).1.EncryptStream.isSome = true ∧
    (ed.initCipherStream).1.DecryptStream.isSome = true := by
  have hp : ed.initCipherStream = ((ed.initCipherStream).1, none) := by
    rw [← h]
  exact initCipherStream_pair_some ed (ed.initCipherStream).1 hp

/-! ## Claim theorems -/

/-- C1: for every byte sequence P and every fixed key/IV pair under a given
stream mode (any configuration pair whose builder succeeds with the same
keystream on the encrypt side of the first and the decrypt side of the
second), feeding P through the encrypt task and feeding the resulting
ciphertext through the decrypt task of the matching configuration yields
exactly P, byte-for-byte, with no truncation and no reordering. -/
theorem c1_round_trip (ed1 ed2 ed1s ed2s : StreamEncryptDecrypter)
    (ks : CipherStream) (P : List Nat)
    (h1 : ed1.initCipherStream = (ed1s, none))
    (h2 : ed2.initCipherStream = (ed2s, none))
    (hE : ed1s.EncryptStream = some ks)
    (hD : ed2s.DecryptStream = some ks) :
    ed1.Ciphertext P [] = .ok (DuplexSession.mk (xorKeyStreamBytes ks P) []) ∧
    ed2.Plaintext [] (xorKeyStreamBytes ks P) = .ok (DuplexSession.mk P []) ∧
    (xorKeyStreamBytes ks P).length = P.length := by
  unfold StreamEncryptDecrypter.Ciphertext StreamEncryptDecrypter.Plaintext
  rw [h1, h2]
  simp [hE, hD, xorKeyStreamBytes_involutive, xorKeyStreamBytes_length,
    xorKeyStreamBytes_nil]

/-- Witness for C1 at a concrete keystream and byte sequence. -/
theorem c1_round_trip_witness :
    edReady.Ciphertext [10, 200, 7] [] =
      .ok (DuplexSession.mk (xorKeyStreamBytes ksW [10, 200, 7]) []) ∧
    edReady.Plaintext [] (xorKeyStreamBytes ksW [10, 200, 7]) =
      .ok (DuplexSession.mk [10, 200, 7] []) ∧
    (xorKeyStreamBytes ksW [10, 200, 7]).length = [10, 200, 7].length :=
  c1_round_trip edReady edReady edReady edReady ksW [10, 200, 7] rfl rfl rfl rfl

/-- C2: `CipherConn.Read` first performs a zero-length read probe against
the real connection; if the probe fails it returns 0 bytes and the probe's
error without performing any operation on the pipe (the connection state,
including the pipe, is returned unchanged); if the probe succeeds it
returns exactly the result of the pipe's read.  `CipherConn.Write` behaves
symmetrically with a zero-length write probe. -/
theorem c2_probe_guard (c : CipherConn) (n : Nat) (bs : List Nat) :
    (∀ e, (RealConn.read c.conn 0).2 = some e →
        CipherConn.Read c n = (([], some e), c)) ∧
    ((RealConn.read c.conn 0).2 = none →
        CipherConn.Read c n =
          (((PipeState.read c.rw n).1, none),
            CipherConn.mk (PipeState.read c.rw n).2 c.conn)) ∧
    (∀ e, (RealConn.write c.conn []).2 = some e →
        CipherConn.Write c bs = ((0, some e), c)) ∧
    ((RealConn.write c.conn []).2 = none →
        CipherConn.Write c bs =
          (((PipeState.write c.rw bs).1, none),
            CipherConn.mk (PipeState.write c.rw bs).2 c.conn)) := by
  rcases c with ⟨p, ⟨b⟩⟩
  cases b <;>
    refine ⟨fun e he => ?_, fun hn => ?_, fun e he => ?_, fun hn => ?_⟩ <;>
    simp_all [CipherConn.Read, CipherConn.Write, RealConn.read, RealConn.write,
      PipeState.read, PipeState.write]

/-- Witness for C2: on a closed real connection the probe error comes back
and the pipe is untouched. -/
theorem c2_probe_guard_witness :
    CipherConn.Read connClosedW 1 = (([], some errClosed), connClosedW) :=
  (c2_probe_guard connClosedW 1 []).1 errClosed rfl

/-- C8: `CipherConn.Close` closes the real connection, a first close of a
live connection succeeds, and a second close — the situation of the two
background tasks both terminating — does not fail arbitrarily: it returns
the stable already-closed error and leaves the state unchanged. -/
theorem c8_close_idempotent (c : CipherConn) :
    (CipherConn.Close c).2.conn.closed = true ∧
    (c.conn.closed = false → (CipherConn.Close c).1 = none) ∧
    CipherConn.Close ((CipherConn.Close c).2) =
      (some errClosed, (CipherConn.Close c).2) := by
  rcases c with ⟨p, rc⟩
  rcases rc with ⟨b⟩
  cases b <;> simp [CipherConn.Close, RealConn.close]

/-- Witness for C8: closing a live connection succeeds. -/
theorem c8_close_idempotent_witness : (CipherConn.Close connOpenW).1 = none :=
  (c8_close_idempotent connOpenW).2.1 rfl

/-- C10: no operation of the core closes a local pipe end: `Close` (and
with it the termination path of each background task) leaves the whole
pipe state untouched and affects only the real connection, and `Read` and
`Write` never close a pipe end nor the real connection. -/
theorem c10_pipe_frame (c : CipherConn) (n : Nat) (bs : List Nat) :
    (CipherConn.Close c).2.rw = c.rw ∧
    (taskTermination c).2.rw = c.rw ∧
    (CipherConn.Read c n).2.rw.endClosed = c.rw.endClosed ∧
    (CipherConn.Write c bs).2.rw.endClosed = c.rw.endClosed ∧
    (CipherConn.Read c n).2.conn = c.conn ∧
    (CipherConn.Write c bs).2.conn = c.conn := by
  rcases c with ⟨p, rc⟩
  rcases rc with ⟨b⟩
  cases b <;>
    simp [CipherConn.Close, CipherConn.Read, CipherConn.Write, taskTermination,
      RealConn.close, RealConn.read, RealConn.write, PipeState.read, PipeState.write]

/-- C3 counterexample: an empty (length-0, non-nil) encrypt key next to a
present constructor and IV does NOT fail with a ConfigurationError — it
passes the nil checks, reaches `aes.NewCipher`, and fails with the
key-size CipherConstructionError. -/
theorem c3_counterexample :
    (c3edCex.initCipherStream).2 =
      some (.CipherConstructionError "crypto/aes: invalid key size 0") ∧
    c3edCex.EncryptKey = some [] ∧
    c3edCex.EncryptStream = none ∧
    c3edCex.StreamEncrypter.isSome = true ∧
    c3edCex.EncryptIV = some (List.replicate 16 0) := by
  refine ⟨rfl, rfl, rfl, rfl, rfl⟩

/-- C3 (amended): for each direction with no ready stream,
`initCipherStream` requires a non-nil key, a non-nil constructor and a
non-nil IV; whenever that direction's checks run (immediately for the
encrypt direction; for the decrypt direction, once the encrypt direction
has succeeded — whether its stream was ready or was built by the same
call), a nil among these fails the call with a ConfigurationError naming
the missing field, and no I/O is performed; in particular a configuration
with no encrypt stream, no encrypt key and no constructor fails with
ConfigurationError.  An empty but non-nil key is not treated as missing:
it reaches cipher construction and fails with a CipherConstructionError
instead — see the counterexample. -/
theorem c3_nil_material (ed : StreamEncryptDecrypter) :
    (ed.EncryptStream = none →
        (ed.StreamEncrypter = none ∨ ed.EncryptKey = none) →
        ed.initCipherStream = (ed, some (.ConfigurationError
          "at least one of EncryptStream OR EncryptKey and StreamEncrypter must be set"))) ∧
    (ed.EncryptStream = none → ed.StreamEncrypter.isSome = true →
        ed.EncryptKey.isSome = true → ed.EncryptIV = none →
        ed.initCipherStream = (ed, some (.ConfigurationError "encrypt IV must be set"))) ∧
    (encryptHalfOK ed → ed.DecryptStream = none →
        (ed.StreamDecrypter = none ∨ ed.DecryptKey = none) →
        (ed.initCipherStream).2 = some (.ConfigurationError
          "at least one of DecryptStream OR DecryptKey and StreamDecrypter must be set")) ∧
    (encryptHalfOK ed → ed.DecryptStream = none →
        ed.StreamDecrypter.isSome = true → ed.DecryptKey.isSome = true →
        ed.DecryptIV = none →
        (ed.initCipherStream).2 = some (.ConfigurationError "decrypt IV must be set")) := by
  refine ⟨fun h1 h2 => ?_, fun h1 h2 h3 h4 => ?_, fun h1 h2 h3 => ?_,
    fun h1 h2 h3 h4 h5 => ?_⟩
  · rcases hse : ed.StreamEncrypter with _ | ctor <;>
      rcases hek : ed.EncryptKey with _ | key <;>
      simp_all [StreamEncryptDecrypter.initCipherStream]
  · obtain ⟨ctor, hse⟩ := Option.isSome_iff_exists.mp h2
    obtain ⟨key, hek⟩ := Option.isSome_iff_exists.mp h3
    simp [StreamEncryptDecrypter.initCipherStream, h1, hse, hek, h4]
  · rcases h1 with hok | ⟨h0, hce, ⟨k, hk, hvalid⟩, hiv⟩
    · obtain ⟨s, hs⟩ := Option.isSome_iff_exists.mp hok
      rcases hsd : ed.StreamDecrypter with _ | ctor <;>
        rcases hdk : ed.DecryptKey with _ | key <;>
        simp_all [StreamEncryptDecrypter.initCipherStream, initDecryptHalf]
    · obtain ⟨ctor, hse⟩ := Option.isSome_iff_exists.mp hce
      obtain ⟨iv, hivs⟩ := Option.isSome_iff_exists.mp hiv
      have hnew : aesNewCipher k = .ok (BlockCipher.mk 16 (aesEncryptBlock k)) := by
        unfold aesNewCipher
        rw [if_pos hvalid]
      rcases hsd : ed.StreamDecrypter with _ | ctor2 <;>
        rcases hdk : ed.DecryptKey with _ | key2 <;>
        simp_all [StreamEncryptDecrypter.initCipherStream, initDecryptHalf, hnew]
  · obtain ⟨ctorD, hsd⟩ := Option.isSome_iff_exists.mp h3
    obtain ⟨keyD, hdk⟩ := Option.isSome_iff_exists.mp h4
    rcases h1 with hok | ⟨h0, hce, ⟨k, hk, hvalid⟩, hiv⟩
    · obtain ⟨s, hs⟩ := Option.isSome_iff_exists.mp hok
      simp_all [StreamEncryptDecrypter.initCipherStream, initDecryptHalf]
    · obtain ⟨ctor, hse⟩ := Option.isSome_iff_exists.mp hce
      obtain ⟨iv, hivs⟩ := Option.isSome_iff_exists.mp hiv
      have hnew : aesNewCipher k = .ok (BlockCipher.mk 16 (aesEncryptBlock k)) := by
        unfold aesNewCipher
        rw [if_pos hvalid]
      simp_all [StreamEncryptDecrypter.initCipherStream, initDecryptHalf, hnew]

/-- Witness for C3 (amended): the all-nil configuration — in particular no
encrypt stream, no encrypt key and no constructor — fails with the
ConfigurationError naming the missing encrypt material. -/
theorem c3_nil_material_witness :
    edNilW.initCipherStream = (edNilW, some (.ConfigurationError
      "at least one of EncryptStream OR EncryptKey and StreamEncrypter must be set")) :=
  (c3_nil_material edNilW).1 rfl (Or.inl rfl)

/-- C4: a key whose length the block cipher rejects makes the builder fail
with the key-size CipherConstructionError, and both transforms return that
error synchronously: no session (no connection, no background task) is
produced. -/
theorem c4_key_size (ed : StreamEncryptDecrypter) (key : List Nat)
    (h0 : ed.EncryptStream = none)
    (h1 : ed.StreamEncrypter.isSome = true)
    (h2 : ed.EncryptKey = some key)
    (h3 : ed.EncryptIV.isSome = true)
    (h4 : ¬(key.length = 16 ∨ key.length = 24 ∨ key.length = 32)) :
    ed.initCipherStream = (ed, some (.CipherConstructionError
        ("crypto/aes: invalid key size " ++ toString key.length))) ∧
    (∀ a b, ed.Ciphertext a b = .error (.CipherConstructionError
        ("crypto/aes: invalid key size " ++ toString key.length))) ∧
    (∀ a b, ed.Plaintext a b = .error (.CipherConstructionError
        ("crypto/aes: invalid key size " ++ toString key.length))) := by
  obtain ⟨ctor, hse⟩ := Option.isSome_iff_exists.mp h1
  obtain ⟨iv, hiv⟩ := Option.isSome_iff_exists.mp h3
  have hinit : ed.initCipherStream = (ed, some (.CipherConstructionError
      ("crypto/aes: invalid key size " ++ toString key.length))) := by
    simp [StreamEncryptDecrypter.initCipherStream, h0, hse, h2, hiv, aesNewCipher, h4]
  refine ⟨hinit, fun a b => ?_, fun a b => ?_⟩ <;>
    simp [StreamEncryptDecrypter.Ciphertext, StreamEncryptDecrypter.Plaintext, hinit]

/-- Witness for C4: the 5-byte key of the spec fails with the key-size
error and the transform returns it synchronously. -/
theorem c4_key_size_witness :
    edKey5W.Ciphertext [1] [2] =
      .error (.CipherConstructionError "crypto/aes: invalid key size 5") :=
  (c4_key_size edKey5W [1, 2, 3, 4, 5] rfl rfl rfl rfl (by decide)).2.1 [1] [2]

/-- C5: a direction whose stream is already ready is left untouched by
`initCipherStream`: its fields are preserved, and when both directions are
ready the call succeeds without looking at any key, IV or constructor
(whatever those fields hold, including nil), so a second call after a
successful one is a no-op. -/
theorem c5_ready_idempotent (ed : StreamEncryptDecrypter) :
    (∀ s, ed.EncryptStream = some s →
        (ed.initCipherStream).1.EncryptStream = some s ∧
        (ed.initCipherStream).1.EncryptKey = ed.EncryptKey ∧
        (ed.initCipherStream).1.StreamEncrypter = ed.StreamEncrypter ∧
        (ed.initCipherStream).1.EncryptIV = ed.EncryptIV) ∧
    (∀ s, ed.DecryptStream = some s →
        (ed.initCipherStream).1.DecryptStream = some s ∧
        (ed.initCipherStream).1.DecryptKey = ed.DecryptKey ∧
        (ed.initCipherStream).1.StreamDecrypter = ed.StreamDecrypter ∧
        (ed.initCipherStream).1.DecryptIV = ed.DecryptIV) ∧
    (∀ s t, ed.EncryptStream = some s → ed.DecryptStream = some t →
        ed.initCipherStream = (ed, none)) ∧
    (∀ ed2, ed.initCipherStream = (ed2, none) → ed2.initCipherStream = (ed2, none)) := by
  refine ⟨fun s hs => ?_, fun s hs => ?_, fun s t hs ht => init_ready ed s t hs ht,
    fun ed2 h => ?_⟩
  · unfold StreamEncryptDecrypter.initCipherStream initDecryptHalf
    simp only [hs]
    repeat' split
    all_goals simp_all
  · unfold StreamEncryptDecrypter.initCipherStream initDecryptHalf
    repeat' split
    all_goals simp_all
  · have h1 : (ed.initCipherStream).2 = none := by rw [h]
    have h2 := initCipherStream_some ed h1
    rw [h] at h2
    obtain ⟨s, hs⟩ := Option.isSome_iff_exists.mp h2.1
    obtain ⟨t, ht⟩ := Option.isSome_iff_exists.mp h2.2
    exact init_ready ed2 s t hs ht

/-- Witness for C5 at a configuration with both streams ready and every
other field nil: the builder is a no-op on it. -/
theorem c5_ready_idempotent_witness : edReady.initCipherStream = (edReady, none) :=
  (c5_ready_idempotent edReady).2.2.1 ksW ksW rfl rfl

/-- C6 counterexample: a call that fails with the decrypt direction's
ConfigurationError does NOT leave the other (encrypt) direction untouched:
the same failing call has already materialized the encrypt stream
(`EncryptStream` changes from nil to a built stream). -/
theorem c6_counterexample :
    (c6edCex.initCipherStream).2 = some (.ConfigurationError
      "at least one of DecryptStream OR DecryptKey and StreamDecrypter must be set") ∧
    c6edCex.EncryptStream = none ∧
    (c6edCex.initCipherStream).1.EncryptStream.isSome = true := by
  refine ⟨rfl, rfl, rfl⟩

/-- C6 (amended): when `initCipherStream` fails in the encrypt direction's
nil checks, the whole configuration is returned unchanged; on any failing
call the key, IV and constructor fields of both directions are unchanged
and the decrypt stream is unchanged — but a failure in the decrypt
direction may leave the encrypt stream already materialized by the same
call. -/
theorem c6_failure_frame (ed : StreamEncryptDecrypter) :
    (ed.EncryptStream = none →
        (ed.StreamEncrypter = none ∨ ed.EncryptKey = none ∨ ed.EncryptIV = none) →
        (ed.initCipherStream).1 = ed) ∧
    ((ed.initCipherStream).1.EncryptKey = ed.EncryptKey ∧
     (ed.initCipherStream).1.StreamEncrypter = ed.StreamEncrypter ∧
     (ed.initCipherStream).1.EncryptIV = ed.EncryptIV ∧
     (ed.initCipherStream).1.DecryptKey = ed.DecryptKey ∧
     (ed.initCipherStream).1.StreamDecrypter = ed.StreamDecrypter ∧
     (ed.initCipherStream).1.DecryptIV = ed.DecryptIV) ∧
    ((ed.initCipherStream).2.isSome = true →
        (ed.initCipherStream).1.DecryptStream = ed.DecryptStream) := by
  refine ⟨fun h1 h2 => ?_, ?_, fun h => ?_⟩
  · rcases h2 with h2 | h2 | h2 <;>
      · unfold StreamEncryptDecrypter.initCipherStream
        repeat' split
        all_goals simp_all
  · unfold StreamEncryptDecrypter.initCipherStream initDecryptHalf
    repeat' split
    all_goals simp_all
  · unfold StreamEncryptDecrypter.initCipherStream initDecryptHalf at *
    repeat' split at h
    all_goals simp_all

/-- Witness for C6 (amended): on the all-nil configuration the failing
call returns the configuration unchanged. -/
theorem c6_failure_frame_witness : (edNilW.initCipherStream).1 = edNilW :=
  (c6_failure_frame edNilW).1 rfl (Or.inl rfl)

/-- C7: whenever `initCipherStream` succeeds both stream-cipher objects
are materialized, and each transform produces a session exactly when the
builder succeeds — both directions must succeed before any data flows. -/
theorem c7_both_streams (ed : StreamEncryptDecrypter) :
    ((ed.initCipherStream).2 = none →
        (ed.initCipherStream).1.EncryptStream.isSome = true ∧
        (ed.initCipherStream).1.DecryptStream.isSome = true) ∧
    (∀ a b, exceptIsOk (ed.Ciphertext a b) = true ↔ (ed.initCipherStream).2 = none) ∧
    (∀ a b, exceptIsOk (ed.Plaintext a b) = true ↔ (ed.initCipherStream).2 = none) := by
  refine ⟨fun h => initCipherStream_some ed h, fun a b => ?_, fun a b => ?_⟩ <;>
    · rcases hinit : ed.initCipherStream with ⟨ed2, oe⟩
      rcases oe <;>
        simp [StreamEncryptDecrypter.Ciphertext, StreamEncryptDecrypter.Plaintext,
          hinit, exceptIsOk]

/-- Witness for C7: on a ready configuration the transform produces a
session. -/
theorem c7_both_streams_witness : exceptIsOk (edReady.Ciphertext [1] [2]) = true :=
  ((c7_both_streams edReady).2.1 [1] [2]).mpr rfl

/-- C9: with key 00..0F, the all-zero 16-byte IV and CTR mode in both
directions, writing the bytes 01 02 03 on the ciphertext-facing side of
the `Ciphertext` transform delivers, on the real plaintext connection,
exactly the byte-wise XOR of 01 02 03 with the first three keystream
bytes of AES-CTR(key, IV) — concretely the bytes c7 a3 38. -/
theorem c9_concrete_vector :
    c9ed.Ciphertext [] [0x01, 0x02, 0x03] =
      .ok (DuplexSession.mk []
        [0x01 ^^^ aesCtrKeystream c9key c9iv 0,
         0x02 ^^^ aesCtrKeystream c9key c9iv 1,
         0x03 ^^^ aesCtrKeystream c9key c9iv 2]) ∧
    [0x01 ^^^ aesCtrKeystream c9key c9iv 0,
     0x02 ^^^ aesCtrKeystream c9key c9iv 1,
     0x03 ^^^ aesCtrKeystream c9key c9iv 2] = [0xc7, 0xa3, 0x38] := by
  constructor
  · rfl
  · decide
